import Mathlib

set_option linter.unreachableTactic false
set_option linter.unusedTactic false
set_option linter.unnecessarySeqFocus false

/-!
# Verification of the Restaurant Phone-Ordering backend

A shallow embedding, in Lean 4, of the order-handling core of the
restaurant phone-ordering system (FastAPI + Vapi voice webhooks):

* money arithmetic and `calculate_totals` (`app/main.py`),
* the mock geo service (`app/services/geo/mock.py`),
* the Vapi webhook function-call dispatcher and its handlers
  (`app/services/voice/vapi_handler.py`),
* the Stripe payment webhook (`app/main.py`),
* the end-of-call-report reconciliation (`app/services/voice/vapi_handler.py`).

Python floats are modelled as exact rationals; `round(x, 2)` is modelled as
round-half-to-even on the exact value.  The database session is modelled as an
explicit state value (lists of order rows and call-log rows); queued Celery
jobs are modelled as explicit job lists.  Randomised behaviour of the mock
services (latency, injected failure, generated coordinates) is threaded as an
explicit oracle argument.
-/

namespace Restaurant

/-! ## Money arithmetic

Python's `round(x, 2)` rounds half to even.  `pyRound2` is that operation on
exact rationals. -/

/-- Round a rational to the nearest integer, ties to even (Python `round`). -/
def roundHalfEven (x : ℚ) : ℤ :=
  let f := ⌊x⌋
  let r := x - (f : ℚ)
  if r < 1/2 then f
  else if 1/2 < r then f + 1
  else if f % 2 = 0 then f else f + 1

/-- Python `round(x, 2)`: round to two decimal places, ties to even. -/
def pyRound2 (x : ℚ) : ℚ := (roundHalfEven (x * 100) : ℚ) / 100

/-- A rational is an exact number of cents. -/
def centValued (x : ℚ) : Prop := ∃ n : ℤ, x = (n : ℚ) / 100

/-! ## Configuration (`app/core/config.py`)

Default values of the business-configuration settings. -/

namespace Settings

/-- `tax_rate` default `0.08875` (NYC). -/
def tax_rate : ℚ := 0.08875

/-- `delivery_fee` default `5.99`. -/
def delivery_fee : ℚ := 5.99

/-- `estimated_delivery_minutes` default `40`. -/
def estimated_delivery_minutes : ℕ := 40

/-- `restaurant_name` default. -/
def restaurant_name : String := "AI Pizza Palace"

/-- `valid_zip_codes_list`: the configured delivery-zone zip codes. -/
def valid_zip_codes_list : List String :=
  ["10001", "10002", "10003", "10004", "10005", "10006", "10007", "10008",
   "10009", "10010", "10011", "10012", "10013", "10014", "10016", "10017",
   "10018", "10019", "10020", "10021"]

end Settings

/-! ## `calculate_totals` (`app/main.py`, lines 137–150) -/

/-- A line item of the direct order-create API (`OrderItemCreate` in
`app/schemas.py`: `quantity : int ≥ 1`, `unit_price : float > 0`). -/
structure OrderItemCreate where
  name : String
  quantity : ℕ
  unit_price : ℚ
deriving DecidableEq

/-- The dict returned by `calculate_totals`. -/
structure Totals where
  subtotal : ℚ
  tax : ℚ
  delivery_fee : ℚ
  tip : ℚ
  total_amount : ℚ
deriving DecidableEq

/-- `sum(item.quantity * item.unit_price for item in items)`. -/
def rawSubtotal (items : List OrderItemCreate) : ℚ :=
  (items.map (fun i => (i.quantity : ℚ) * i.unit_price)).sum

/-- `calculate_totals` from `app/main.py`. -/
def calculate_totals (items : List OrderItemCreate) (order_type : String)
    (tip : ℚ) : Totals :=
  let subtotal := rawSubtotal items
  let tax := pyRound2 (subtotal * Settings.tax_rate)
  let delivery_fee := if order_type = "delivery" then Settings.delivery_fee else 0
  let total := pyRound2 (subtotal + tax + delivery_fee + tip)
  { subtotal := pyRound2 subtotal
    tax := tax
    delivery_fee := delivery_fee
    tip := tip
    total_amount := total }

/-! ## Python string helpers -/

/-- `as` is a prefix of `bs` (on character lists, so that it evaluates by
kernel reduction). -/
def startsWithCh : List Char → List Char → Bool
  | [], _ => true
  | _ :: _, [] => false
  | a :: as, b :: bs => a == b && startsWithCh as bs

/-- `as` occurs contiguously inside `bs`. -/
def containsSub (as : List Char) : List Char → Bool
  | [] => startsWithCh as []
  | b :: bs => startsWithCh as (b :: bs) || containsSub as bs

/-- Python `a in b` on strings: `a` is a contiguous substring of `b`. -/
def substrOf (a b : String) : Bool := containsSub a.data b.data

/-- Python `str.lower()` (characterwise, ASCII). -/
def pyLower (s : String) : String := String.mk (s.data.map Char.toLower)

/-- Python `str.upper()` (characterwise, ASCII). -/
def pyUpper (s : String) : String := String.mk (s.data.map Char.toUpper)

/-- Python `str.replace(" ", "_")`: a single-character pattern, so a
characterwise map. -/
def underscoreSpaces (s : String) : String :=
  String.mk (s.data.map (fun c => if c = ' ' then '_' else c))

/-- Python truthiness-based `a or b` on optional strings
(`None` and `""` are falsy). -/
def pyOrStr (a : Option String) (b : String) : String :=
  match a with
  | some s => if s = "" then b else s
  | none => b

/-- Python `str(x)` on an optional string (`str(None) = "None"`). -/
def pyStrOpt (a : Option String) : String :=
  match a with
  | some s => s
  | none => "None"

/-- `str.title()` for ASCII text: a cased character is uppercased when the
previous character is not alphabetic, lowercased otherwise. -/
def pyTitleAux : List Char → Bool → List Char
  | [], _ => []
  | c :: cs, prevAlpha =>
    (if c.isAlpha then (if prevAlpha then c.toLower else c.toUpper) else c)
      :: pyTitleAux cs c.isAlpha

/-- Python `str.title()` (ASCII). -/
def pyTitle (s : String) : String := ⟨pyTitleAux s.data false⟩

/-- Two-digit zero-padded rendering of a natural number below 100. -/
def pad2 (n : ℕ) : String := if n < 10 then "0" ++ toString n else toString n

/-- Python `f"{x:.2f}"` for a non-negative amount: fixed two decimal places,
ties to even.  Also agrees with `str(x)` for the menu's two-decimal prices. -/
def money2 (q : ℚ) : String :=
  let c := roundHalfEven (q * 100)
  toString (c / 100) ++ "." ++ pad2 (c % 100).toNat

/-! ## Mock geo service (`app/services/geo/mock.py`)

Randomised behaviour (injected failure, latency, generated coordinates and
distance) is threaded through an explicit oracle. -/

/-- The randomness consumed by one `MockGeoService` request. -/
structure GeoRand where
  shouldFail : Bool := false
  latencyMs : ℚ := 0
  lat : ℚ := 0
  lng : ℚ := 0
  distanceMiles : ℚ := 0
deriving DecidableEq

/-- `GeoValidationResult` dataclass (`app/services/geo/base.py`). -/
structure GeoValidationResult where
  is_valid : Bool
  formatted_address : Option String := none
  latitude : Option ℚ := none
  longitude : Option ℚ := none
  zip_code : Option String := none
  city : Option String := none
  state : Option String := none
  country : Option String := none
  is_in_delivery_zone : Bool := false
  distance_miles : Option ℚ := none
  error_message : Option String := none
  error_code : Option String := none
  response_time_ms : ℚ := 0
deriving DecidableEq

namespace MockGeoService

/-- `MockGeoService.validate_address` (`app/services/geo/mock.py`,
lines 119–194): simulated failure, then empty-address check, then the static
zip-code zone membership test; an out-of-zone zip yields `is_valid = False`. -/
def validate_address (rand : GeoRand) (address city zip_code state : String) :
    GeoValidationResult :=
  if rand.shouldFail then
    { is_valid := false
      error_message := some "Geocoding service temporarily unavailable"
      error_code := some "service_unavailable"
      response_time_ms := rand.latencyMs }
  -- `not address or not address.strip()`: the address is empty or whitespace
  else if address.data.all (fun c => c.isWhitespace) then
    { is_valid := false
      error_message := some "Address is required"
      error_code := some "invalid_address"
      response_time_ms := rand.latencyMs }
  else if ¬ (zip_code ∈ Settings.valid_zip_codes_list) then
    { is_valid := false
      is_in_delivery_zone := false
      error_message := some ("Sorry, we don't deliver to zip code " ++ zip_code)
      error_code := some "outside_delivery_zone"
      response_time_ms := rand.latencyMs }
  else
    { is_valid := true
      formatted_address :=
        some (pyTitle address ++ ", " ++ pyTitle city ++ ", " ++
          pyUpper state ++ " " ++ zip_code)
      latitude := some rand.lat
      longitude := some rand.lng
      zip_code := some zip_code
      city := some (pyTitle city)
      state := some (pyUpper state)
      country := some "US"
      is_in_delivery_zone := true
      distance_miles := some rand.distanceMiles
      response_time_ms := rand.latencyMs }

end MockGeoService

/-! ## Data model (`app/models.py`)

Timestamps are modelled as abstract natural-number instants. -/

/-- `OrderStatus` enum. -/
inductive OrderStatus where
  | PENDING | CONFIRMED | PAYMENT_PENDING | PAID | PREPARING | READY
  | OUT_FOR_DELIVERY | DELIVERED | PICKED_UP | FAILED | CANCELLED
  | TRANSFERRED_TO_HUMAN
deriving DecidableEq

/-- `OrderType` enum. -/
inductive OrderType where
  | PICKUP | DELIVERY
deriving DecidableEq

/-- `CallOutcome` enum. -/
inductive CallOutcome where
  | ORDER_COMPLETED | ORDER_CANCELLED | TRANSFERRED_TO_HUMAN
  | CUSTOMER_HANGUP | AI_FAILED | NO_ORDER
deriving DecidableEq

/-- A line item as serialized into the `Order.items` JSON blob by
`_func_create_order` (`{"name", "quantity", "unit_price"}`).  The blob is
modelled as the typed list it serializes. -/
structure CreatedItem where
  name : String
  quantity : ℚ
  unit_price : ℚ
deriving DecidableEq

/-- A persisted `orders` row (`app/models.py`, class `Order`); only columns
the embedded code reads or writes are listed. -/
structure OrderRow where
  id : ℕ
  order_type : OrderType
  customer_name : String
  customer_phone : String
  customer_email : Option String := none
  customer_language : String := "en"
  delivery_address : Option String := none
  city : Option String := none
  state : Option String := none
  zip_code : Option String := none
  delivery_instructions : Option String := none
  pickup_time : Option ℕ := none
  items : List CreatedItem
  special_instructions : Option String := none
  subtotal : ℚ
  tax : ℚ
  delivery_fee : ℚ
  tip : ℚ
  total_amount : ℚ
  payment_intent_id : Option String := none
  payment_status : String := "pending"
  payment_link_sent : Bool := false
  payment_link_url : Option String := none
  payment_method : Option String := none
  status : OrderStatus
  call_id : Option String := none
  call_recording_url : Option String := none
  call_transcription : Option String := none
  call_duration_seconds : Option ℕ := none
  handled_by_ai : Bool := true
  transferred_to_human : Bool := false
  transfer_reason : Option String := none
  sent_to_kitchen : Bool := false
  sent_to_kitchen_at : Option ℕ := none
  estimated_ready_time : Option ℕ := none
  created_at : ℕ
  updated_at : Option ℕ := none
  completed_at : Option ℕ := none
deriving DecidableEq

/-- A persisted `call_logs` row (`app/models.py`, class `CallLog`). -/
structure CallLogRow where
  id : ℕ
  call_id : String
  caller_phone : String
  caller_language : String := "en"
  transcription : Option String := none
  recording_url : Option String := none
  wanted_to_order : Bool := false
  outcome : CallOutcome
  customer_message : Option String := none
  handled_by_ai : Bool := true
  call_duration_seconds : Option ℕ := none
  call_ended_at : Option ℕ := none
  created_at : ℕ
deriving DecidableEq

/-- The database session state: the two tables plus autoincrement counters. -/
structure DB where
  orders : List OrderRow
  call_logs : List CallLogRow
  next_order_id : ℕ := 1
  next_call_log_id : ℕ := 1
deriving DecidableEq

/-- A Celery job queued with `.delay` (`app/tasks.py`). -/
inductive Job where
  | exportOrder (order_id : ℕ)
  | exportCallLog (call_id : String)
  | sendToKitchen (order_id : ℕ)
deriving DecidableEq

/-! ## Vapi payload and parameter model
(`app/services/voice/vapi_schemas.py`)

Function-call parameters arrive as a JSON map; the embedding types each key
the handlers read.  An `Option` field is `none` when the key is absent. -/

/-- `CustomerInfo`. -/
structure CustomerInfo where
  number : Option String := none
  name : Option String := none
deriving DecidableEq

/-- `CallInfo` (the fields the handlers read). -/
structure CallInfo where
  id : String
  customer : Option CustomerInfo := none
deriving DecidableEq

/-- An element of the `items` parameter list (a JSON object; each key the
handlers read, absent keys `none`).  Non-dict elements raise in
`_func_add_items` and are skipped by `_func_create_order`; they are outside
this model. -/
structure PItem where
  name : Option String := none
  quantity : Option ℚ := none
  unit_price : Option ℚ := none
  price : Option ℚ := none
  total : Option ℚ := none
deriving DecidableEq

/-- An element of the round-tripped `current_order` parameter list: exactly
the dicts `_func_add_items` emits (`name`, `quantity`, `unit_price`,
`total` all present). -/
structure AddedItem where
  name : String
  quantity : ℚ
  unit_price : ℚ
  total : ℚ
deriving DecidableEq

/-- The typed view of `FunctionCallPayload.parameters`. -/
structure Params where
  detected_language : Option String := none
  wants_to_order : Option String := none
  response : Option String := none
  order_type : Option String := none
  address : Option String := none
  city : Option String := none
  zip_code : Option String := none
  zipCode : Option String := none
  state : Option String := none
  category : Option String := none
  items : Option (List PItem) := none
  current_order : Option (List AddedItem) := none
  item_name : Option String := none
  confirmed : Option String := none
  payment_method : Option String := none
  amount : Option ℚ := none
  total : Option ℚ := none
  customer_phone : Option String := none
  customer_email : Option String := none
  order_summary : Option String := none
  customer_name : Option String := none
  tip : Option ℚ := none
  payment_id : Option String := none
  payment_intent_id : Option String := none
  delivery_address : Option String := none
  delivery_instructions : Option String := none
  special_instructions : Option String := none
  transcription : Option String := none
  recording_url : Option String := none
  pickup_time : Option String := none
  reason : Option String := none
  message : Option String := none
  customer_message : Option String := none
  caller_phone : Option String := none
  order_id : Option String := none
deriving DecidableEq

/-- `FunctionCallPayload`. -/
structure FunctionCall where
  name : String
  parameters : Params
deriving DecidableEq

/-! ## The restaurant menu (`VapiWebhookHandler.MENU_ITEMS`) -/

/-- One entry of the `MENU_ITEMS` dict: key, display name, price, category. -/
structure MenuItem where
  key : String
  name : String
  price : ℚ
  category : String
deriving DecidableEq

/-- `MENU_ITEMS` in dict insertion order. -/
def MENU_ITEMS : List MenuItem :=
  [⟨"pizza_margherita", "Pizza Margherita", 14.99, "pizza"⟩,
   ⟨"pizza_pepperoni", "Pepperoni Pizza", 16.99, "pizza"⟩,
   ⟨"pizza_veggie", "Veggie Supreme Pizza", 15.99, "pizza"⟩,
   ⟨"pizza_hawaiian", "Hawaiian Pizza", 16.99, "pizza"⟩,
   ⟨"pasta_carbonara", "Pasta Carbonara", 13.99, "pasta"⟩,
   ⟨"pasta_bolognese", "Pasta Bolognese", 12.99, "pasta"⟩,
   ⟨"pasta_alfredo", "Chicken Alfredo", 14.99, "pasta"⟩,
   ⟨"caesar_salad", "Caesar Salad", 8.99, "salad"⟩,
   ⟨"garden_salad", "Garden Salad", 7.99, "salad"⟩,
   ⟨"garlic_bread", "Garlic Bread", 5.99, "sides"⟩,
   ⟨"mozzarella_sticks", "Mozzarella Sticks", 7.99, "sides"⟩,
   ⟨"chicken_wings", "Chicken Wings (10pc)", 12.99, "sides"⟩,
   ⟨"tiramisu", "Tiramisu", 7.99, "dessert"⟩,
   ⟨"cheesecake", "New York Cheesecake", 6.99, "dessert"⟩,
   ⟨"coke", "Coca-Cola", 2.99, "drinks"⟩,
   ⟨"sprite", "Sprite", 2.99, "drinks"⟩,
   ⟨"water", "Bottled Water", 1.99, "drinks"⟩,
   ⟨"iced_tea", "Iced Tea", 2.49, "drinks"⟩]

/-- An entry of the `menu` list built by `_func_get_menu`. -/
structure MenuListing where
  id : String
  name : String
  price : ℚ
  category : String
deriving DecidableEq

/-- The `result` dict of a `VapiFunctionResponse`: the universal `success` and
`message` fields, plus every optional field some handler sets (absent keys are
`none`). -/
structure VapiResult where
  success : Bool
  message : String
  wants_to_order : Option Bool := none
  next_action : Option String := none
  order_type : Option String := none
  formatted_address : Option String := none
  delivery_available : Option Bool := none
  estimated_delivery_time : Option String := none
  suggest_pickup : Option Bool := none
  menu : Option (List MenuListing) := none
  menu_text : Option String := none
  added_items : Option (List AddedItem) := none
  current_order : Option (List AddedItem) := none
  subtotal : Option ℚ := none
  items : Option (List PItem) := none
  tax : Option ℚ := none
  delivery_fee : Option ℚ := none
  tip : Option ℚ := none
  total : Option ℚ := none
  summary_text : Option String := none
  confirmed : Option Bool := none
  payment_method : Option String := none
  payment_url : Option String := none
  payment_link_sent : Option Bool := none
  order_id : Option (ℕ ⊕ String) := none
  total_amount : Option ℚ := none
  estimated_time : Option String := none
  transfer : Option Bool := none
  transfer_number : Option String := none
  status : Option String := none
deriving DecidableEq

/-! ## Vapi function-call handlers (`app/services/voice/vapi_handler.py`)

Each handler is a pure function of its parameters (plus explicit oracles for
the randomised mock services and the clock).  The database session, where a
handler uses one, is threaded explicitly. -/

/-- Python truthiness of an optional string (`None` and `""` are falsy). -/
def truthyStr : Option String → Bool
  | some s => s ≠ ""
  | none => false

/-- Python `str(x)` of a JSON number: exact for integral values; fractional
values (which do not occur in practice) are rendered with two decimals. -/
def pyNumStr (q : ℚ) : String := if q.den = 1 then toString q.num else money2 q

/-- `VapiWebhookHandler._error_response` (lines 928–935). -/
def _error_response (message : String) : VapiResult :=
  { success := false, message := message }

/-- The non-database side effects of one handler invocation: the behaviour of
the mock notification service and the clock and settings the handlers read. -/
structure Oracle where
  geo : GeoRand := {}
  notifSuccess : Bool := true
  notifPaymentUrl : Option String := none
  human_transfer_number : Option String := none
  now : ℕ := 0
deriving DecidableEq

/-- `_func_check_wants_to_order` (lines 203–228). -/
def _func_check_wants_to_order (params : Params) : VapiResult :=
  let wants_to_order := pyLower ((params.wants_to_order <|> params.response).getD "")
  if (["yes", "yeah", "sure", "ok", "okay", "please", "si", "oui", "ja"]).contains
      wants_to_order then
    { success := true
      wants_to_order := some true
      message := "Great! Is this order for pickup or delivery?"
      next_action := some "select_order_type" }
  else
    { success := true
      wants_to_order := some false
      message := "No problem! Would you like to leave a message?"
      next_action := some "record_message" }

/-- `_func_select_order_type` (lines 230–265). -/
def _func_select_order_type (params : Params) : VapiResult :=
  let order_type := pyLower (params.order_type.getD "")
  if (["pickup", "pick up", "pick-up", "carryout", "carry out"]).contains order_type then
    { success := true
      order_type := some "pickup"
      message := "Perfect! What time would you like to pick up your order?"
      next_action := some "get_pickup_time" }
  else if (["delivery", "deliver", "delivered"]).contains order_type then
    { success := true
      order_type := some "delivery"
      message := "Sure! What's your delivery address?"
      next_action := some "check_delivery_address" }
  else
    { success := false
      message := "I'm sorry, I didn't catch that. Would you like pickup or delivery?"
      next_action := some "select_order_type" }

/-- `_func_check_address` (lines 267–314), with `MockGeoService` as the geo
backend (development mode). -/
def _func_check_address (rand : GeoRand) (params : Params) : VapiResult :=
  let address := params.address.getD ""
  let city := params.city.getD "New York"
  let zip_code := (params.zip_code <|> params.zipCode).getD ""
  let state := params.state.getD "NY"
  let result := MockGeoService.validate_address rand address city zip_code state
  if result.is_valid && result.is_in_delivery_zone then
    { success := true
      message := "Great! We can deliver to " ++ pyStrOpt result.formatted_address ++
        ". What would you like to order?"
      formatted_address := result.formatted_address
      delivery_available := some true
      estimated_delivery_time :=
        some (toString Settings.estimated_delivery_minutes ++ " minutes")
      next_action := some "get_menu" }
  else if result.is_valid && !result.is_in_delivery_zone then
    { success := false
      message := "I'm sorry, we don't deliver to " ++ zip_code ++
        ". Would you like to do a pickup order instead?"
      delivery_available := some false
      suggest_pickup := some true }
  else
    { success := false
      message := "I couldn't find that address. Could you please repeat it?"
      delivery_available := some false }

/-- The per-category grouping of `_func_get_menu` (lines 334–340): categories
in first-occurrence order, each with its `"{name} for ${price}"` entries. -/
def groupMenuByCategory (menu_items : List MenuListing) :
    List (String × List String) :=
  menu_items.foldl (fun categories item =>
    let entry := item.name ++ " for $" ++ money2 item.price
    if categories.any (fun p => p.1 = item.category) then
      categories.map (fun p => if p.1 = item.category then (p.1, p.2 ++ [entry]) else p)
    else categories ++ [(item.category, [entry])]) []

/-- `_func_get_menu` (lines 316–353). -/
def _func_get_menu (params : Params) : VapiResult :=
  let category := pyLower (params.category.getD "all")
  let menu_items := (MENU_ITEMS.filter
      (fun item => category = "all" || item.category = category)).map
    (fun item => MenuListing.mk item.key item.name item.price item.category)
  let menu_text := (groupMenuByCategory menu_items).foldl
    (fun text p =>
      text ++ "\n" ++ pyTitle p.1 ++ ": " ++ String.intercalate ", " p.2 ++ ".") ""
  { success := true
    menu := some menu_items
    menu_text := some menu_text
    message := "Here's our menu:" ++ menu_text ++ "\n\nWhat would you like to order?" }

/-- The item-name normalisation of `_func_add_items` (line 366):
`item.get("name", "").lower().replace(" ", "_")`. -/
def normalizeItemName (s : String) : String := underscoreSpaces (pyLower s)

/-- The fuzzy menu-match test of `_func_add_items` (lines 371–372). -/
def itemMatches (item_name : String) (m : MenuItem) : Bool :=
  substrOf item_name m.key || substrOf m.key item_name ||
    substrOf item_name (pyLower m.name)

/-- The inner `for menu_key, menu_item in self.MENU_ITEMS.items()` loop of
`_func_add_items` (lines 370–379): the first matching menu entry, if any,
becomes the added item. -/
def resolveItem (item : PItem) : Option AddedItem :=
  let item_name := normalizeItemName (item.name.getD "")
  let quantity := item.quantity.getD 1
  (MENU_ITEMS.find? (fun m => itemMatches item_name m)).map
    (fun m => AddedItem.mk m.name quantity m.price (pyRound2 (quantity * m.price)))

/-- `_func_add_items` (lines 355–402). -/
def _func_add_items (params : Params) : VapiResult :=
  let items := params.items.getD []
  let current_order := params.current_order.getD []
  let added_items := items.filterMap resolveItem
  let all_items := current_order ++ added_items
  let subtotal := (all_items.map (fun item => item.total)).sum
  if added_items ≠ [] then
    let item_names := String.intercalate ", "
      (added_items.map (fun i => pyNumStr i.quantity ++ "x " ++ i.name))
    { success := true
      added_items := some added_items
      current_order := some all_items
      subtotal := some (pyRound2 subtotal)
      message := "I've added " ++ item_names ++
        " to your order. Would you like anything else?" }
  else
    { success := false
      message := "I'm sorry, I couldn't find that item on our menu. Could you repeat that?" }

/-- The removal loop of `_func_remove_item` (lines 413–420): drop the first
item whose lowercased name contains the target. -/
def removeFirstMatch (target : String) : List AddedItem → List AddedItem × Bool
  | [] => ([], false)
  | item :: rest =>
    if substrOf target (pyLower item.name) then (rest, true)
    else
      let r := removeFirstMatch target rest
      (item :: r.1, r.2)

/-- `_func_remove_item` (lines 404–438).  Round-tripped `current_order` items
always carry `total`, so `item.get("total", ...)` reads that key. -/
def _func_remove_item (params : Params) : VapiResult :=
  let item_to_remove := pyLower (params.item_name.getD "")
  let current_order := params.current_order.getD []
  let r := removeFirstMatch item_to_remove current_order
  if r.2 then
    let subtotal := (r.1.map (fun item => item.total)).sum
    { success := true
      current_order := some r.1
      subtotal := some (pyRound2 subtotal)
      message := "I've removed that item. Your subtotal is now $" ++ money2 subtotal ++
        ". Anything else?" }
  else
    { success := false
      message := "I couldn't find that item in your order." }

/-- `params.get("items", params.get("current_order", []))` as read by
`_func_get_order_summary` (line 446) and `_func_create_order` (line 592). -/
def getItemsParam (params : Params) : List PItem :=
  match params.items with
  | some l => l
  | none => (params.current_order.getD []).map (fun a =>
      { name := some a.name
        quantity := some a.quantity
        unit_price := some a.unit_price
        total := some a.total })

/-- `_func_get_order_summary` (lines 440–481). -/
def _func_get_order_summary (params : Params) : VapiResult :=
  let items := getItemsParam params
  let order_type := params.order_type.getD "delivery"
  let subtotal := (items.map (fun item =>
    item.total.getD ((item.unit_price.getD 0) * (item.quantity.getD 1)))).sum
  let tax := pyRound2 (subtotal * Settings.tax_rate)
  let delivery_fee := if order_type = "delivery" then Settings.delivery_fee else 0
  let tip := params.tip.getD 0
  let total := pyRound2 (subtotal + tax + delivery_fee + tip)
  let items_text := String.intercalate ", " (items.map
    (fun item => pyNumStr (item.quantity.getD 1) ++ "x " ++ pyStrOpt item.name))
  let summary := "Your order: " ++ items_text ++ ". " ++
    "Subtotal: $" ++ money2 subtotal ++ ", Tax: $" ++ money2 tax ++
    (if delivery_fee > 0 then ", Delivery: $" ++ money2 delivery_fee else "") ++
    ". Total: $" ++ money2 total
  { success := true
    items := some items
    subtotal := some subtotal
    tax := some tax
    delivery_fee := some delivery_fee
    tip := some tip
    total := some total
    summary_text := some summary
    message := summary ++ ". Is this correct?" }

/-- `_func_confirm_order` (lines 483–521). -/
def _func_confirm_order (params : Params) : VapiResult :=
  let confirmed := pyLower (params.confirmed.getD "")
  if (["yes", "yeah", "correct", "right", "ok", "okay", "confirm", "si", "oui"]).contains
      confirmed then
    let payment_method := params.payment_method.getD "card"
    if payment_method = "cash" then
      { success := true
        confirmed := some true
        payment_method := some "cash"
        message := "Great! Your order will be ready for cash payment. Can I get your name for the order?"
        next_action := some "create_order" }
    else
      { success := true
        confirmed := some true
        payment_method := some "card"
        message := "Perfect! I'll send you a secure payment link via text message. Can I confirm your phone number?"
        next_action := some "process_payment" }
  else
    { success := false
      confirmed := some false
      message := "No problem. What would you like to change?" }

/-- `_func_process_payment` (lines 523–558); the mock notification service's
outcome is the oracle's `notifSuccess`/`notifPaymentUrl`. -/
def _func_process_payment (o : Oracle) (_params : Params) : VapiResult :=
  if o.notifSuccess then
    { success := true
      message := "I've sent a payment link to your phone. Once you complete the payment, your order will be confirmed and sent to the kitchen."
      payment_url := o.notifPaymentUrl
      payment_link_sent := some true }
  else
    { success := false
      message := "I'm having trouble sending the payment link. Would you like to pay with cash instead?" }

/-- `_func_create_payment_link` (lines 560–566) delegates to
`_func_process_payment`. -/
def _func_create_payment_link (o : Oracle) (params : Params) : VapiResult :=
  _func_process_payment o params

/-- `_func_transfer_to_human` (lines 718–744). -/
def _func_transfer_to_human (o : Oracle) (_params : Params) : VapiResult :=
  if truthyStr o.human_transfer_number then
    { success := true
      transfer := some true
      transfer_number := o.human_transfer_number
      message := "I'll transfer you to one of our team members. Please hold." }
  else
    { success := false
      transfer := some false
      message := "I apologize, but all our team members are currently busy. Can I take your number and have someone call you back?" }

/-- `_func_get_order_status` (lines 804–828). -/
def _func_get_order_status (params : Params) : VapiResult :=
  if ¬ truthyStr params.order_id then
    { success := false
      message := "What's your order number?" }
  else
    { success := true
      order_id := some (Sum.inr (params.order_id.getD ""))
      status := some "preparing"
      message := "Order " ++ params.order_id.getD "" ++
        " is currently being prepared. It should be ready soon!" }

/-- `customer_phone` resolution in `_func_create_order` (lines 585–587) and
`caller_phone` in `_func_record_message` (lines 759–761): fall back to the
call's customer number when the parameter is empty. -/
def resolvePhone (param : Option String) (call_info : Option CallInfo) : String :=
  let phone := param.getD ""
  if phone = "" then
    match call_info with
    | some ci =>
      match ci.customer with
      | some c => c.number.getD ""
      | none => phone
    | none => phone
  else phone

/-- The `payment_id` extraction of `_func_create_order` (line 619):
`params.get("payment_id", params.get("payment_intent_id"))`. -/
def extractPaymentId (params : Params) : Option String :=
  params.payment_id <|> params.payment_intent_id

/-- The item-dict parse of `_func_create_order` (lines 592–600). -/
def parseCreateItems (params : Params) : List CreatedItem :=
  (getItemsParam params).map (fun item =>
    { name := item.name.getD "Unknown"
      quantity := item.quantity.getD 1
      unit_price := (item.unit_price <|> item.price).getD 0 })

/-- The `order_type` parse of `_func_create_order` (lines 581–582). -/
def parseOrderType (params : Params) : OrderType :=
  if pyLower (params.order_type.getD "delivery") = "pickup" then OrderType.PICKUP
  else OrderType.DELIVERY

/-- The `Order(...)` row built by `_func_create_order` (lines 610–649) when
the item list is non-empty: totals recomputed from the items, payment fields
derived from the caller-supplied `payment_id`/`payment_intent_id` with no
provider verification. -/
def createOrderRow (now : ℕ) (params : Params) (call_info : Option CallInfo)
    (language : String) (id : ℕ) : OrderRow :=
  let order_type := parseOrderType params
  let items := parseCreateItems params
  let subtotal := (items.map (fun i => i.quantity * i.unit_price)).sum
  let tax := pyRound2 (subtotal * Settings.tax_rate)
  let delivery_fee := if order_type = OrderType.DELIVERY then Settings.delivery_fee
    else 0
  let tip := params.tip.getD 0
  let total := pyRound2 (subtotal + tax + delivery_fee + tip)
  let payment_id := extractPaymentId params
  { id := id
    order_type := order_type
    customer_name := params.customer_name.getD "Voice Customer"
    customer_phone := resolvePhone params.customer_phone call_info
    customer_email := params.customer_email
    customer_language := language
    delivery_address :=
      if order_type = OrderType.DELIVERY then params.delivery_address else none
    city := some (params.city.getD "New York")
    state := some (params.state.getD "NY")
    zip_code := params.zip_code
    delivery_instructions := params.delivery_instructions
    pickup_time := none
    items := items
    special_instructions := params.special_instructions
    subtotal := subtotal
    tax := tax
    delivery_fee := delivery_fee
    tip := tip
    total_amount := total
    payment_intent_id := payment_id
    payment_status := if truthyStr payment_id then "paid" else "pending"
    payment_method := some (params.payment_method.getD "card")
    status := if truthyStr payment_id then OrderStatus.PAID
      else OrderStatus.PAYMENT_PENDING
    call_id := call_info.map (fun ci => ci.id)
    call_transcription := params.transcription
    call_recording_url := params.recording_url
    handled_by_ai := true
    transferred_to_human := false
    created_at := now }

/-- `_func_create_order` (lines 568–716): build the order row from the
round-tripped parameters, recompute the totals, persist, and queue the Excel
export.  The `except` branch (line 714) is unreachable in this pure model. -/
def _func_create_order (o : Oracle) (params : Params) (db : Option DB)
    (call_info : Option CallInfo) (language : String) :
    VapiResult × Option DB × List Job :=
  match db with
  | none => (_error_response "Database unavailable", none, [])
  | some db =>
    if parseCreateItems params = [] then
      ({ success := false
         message := "I don't have any items in your order. What would you like to order?" },
       some db, [])
    else
      let new_order := createOrderRow o.now params call_info language db.next_order_id
      let db' : DB := { db with
        orders := db.orders ++ [new_order]
        next_order_id := db.next_order_id + 1 }
      let estimated_time :=
        if new_order.order_type = OrderType.PICKUP then
          params.pickup_time.getD "20-30 minutes"
        else toString Settings.estimated_delivery_minutes ++ " minutes"
      ({ success := true
         message := "Your order number is " ++ toString new_order.id ++
           ". Your total is $" ++ money2 new_order.total_amount ++
           ". Estimated time: " ++ estimated_time ++
           ". Thank you for ordering from " ++ Settings.restaurant_name ++ "!"
         order_id := some (Sum.inl new_order.id)
         total_amount := some new_order.total_amount
         estimated_time := some estimated_time },
       some db', [Job.exportOrder new_order.id])

/-- `_func_record_message` (lines 746–802): persist a `CallLog` row and queue
its Excel export.  (The `call_started_at` column is `NOT NULL` and the handler
never sets it; relational constraints are outside this model, which records
the row the handler builds.) -/
def _func_record_message (o : Oracle) (params : Params) (db : Option DB)
    (call_info : Option CallInfo) (language : String) :
    VapiResult × Option DB × List Job :=
  match db with
  | none => (_error_response "Database unavailable", none, [])
  | some db =>
    let message := (params.message <|> params.customer_message).getD ""
    let caller_phone := resolvePhone params.caller_phone call_info
    let call_log : CallLogRow :=
      { id := db.next_call_log_id
        call_id := match call_info with
          | some ci => ci.id
          | none => "manual_" ++ toString o.now
        caller_phone := caller_phone
        caller_language := language
        transcription := params.transcription
        recording_url := params.recording_url
        wanted_to_order := false
        outcome := CallOutcome.NO_ORDER
        customer_message := some message
        handled_by_ai := true
        created_at := o.now }
    let db' : DB := { db with
      call_logs := db.call_logs ++ [call_log]
      next_call_log_id := db.next_call_log_id + 1 }
    ({ success := true
       message := "I've recorded your message. Someone from our team will get back to you. Thank you for calling!" },
     some db', [Job.exportCallLog call_log.call_id])

/-! ## Webhook payload and dispatch
(`vapi_handler.py` lines 107–197, `vapi_schemas.py` lines 131–165)

`VapiWebhookPayload` (pydantic v2, `extra` ignored) declares exactly the
fields below; reading any other attribute raises `AttributeError`. -/

/-- A Python exception raised inside a webhook handler. -/
inductive PyErr where
  | attributeError
  | multipleResults
deriving DecidableEq

/-- `VapiWebhookPayload` (`type` carried as its string value,
`use_enum_values = True`; the unused `messages` list is omitted). -/
structure VapiWebhookPayload where
  type : String
  function_call : Option FunctionCall := none
  call : Option CallInfo := none
  transcript : Option String := none
  summary : Option String := none
  recording_url : Option String := none
  status : Option String := none
deriving DecidableEq

/-- `getattr(payload, "detected_language")` : `VapiWebhookPayload` declares no
`detected_language` field, so the attribute is missing (`none`) for every
payload and pydantic raises `AttributeError` on access
(`vapi_handler.py` line 147). -/
def detected_language_attr (_ : VapiWebhookPayload) : Option (Option String) := none

/-- `getattr(payload, "duration_seconds")` : `VapiWebhookPayload` declares no
`duration_seconds` field, so the attribute is missing (`none`) for every
payload and pydantic raises `AttributeError` on access
(`vapi_handler.py` line 843). -/
def duration_seconds_attr (_ : VapiWebhookPayload) : Option (Option ℕ) := none

/-- The `handlers` dict of `_handle_function_call` (lines 150–186), in
insertion order, together with the per-name calling convention of lines
191–194: only `create_order`/`place_order`/`record_message`/`leave_message`
receive the database session and the call info. -/
def handlersTable (o : Oracle) (db : Option DB) (call : Option CallInfo)
    (language : String) :
    List (String × (Params → VapiResult × Option DB × List Job)) :=
  [("check_wants_to_order", fun p => (_func_check_wants_to_order p, db, [])),
   ("select_order_type", fun p => (_func_select_order_type p, db, [])),
   ("check_delivery_address", fun p => (_func_check_address o.geo p, db, [])),
   ("validate_address", fun p => (_func_check_address o.geo p, db, [])),
   ("get_menu", fun p => (_func_get_menu p, db, [])),
   ("add_items_to_order", fun p => (_func_add_items p, db, [])),
   ("remove_item_from_order", fun p => (_func_remove_item p, db, [])),
   ("confirm_order", fun p => (_func_confirm_order p, db, [])),
   ("get_order_summary", fun p => (_func_get_order_summary p, db, [])),
   ("process_payment", fun p => (_func_process_payment o p, db, [])),
   ("create_payment_link", fun p => (_func_create_payment_link o p, db, [])),
   ("create_order", fun p => _func_create_order o p db call language),
   ("place_order", fun p => _func_create_order o p db call language),
   ("transfer_to_human", fun p => (_func_transfer_to_human o p, db, [])),
   ("request_human_agent", fun p => (_func_transfer_to_human o p, db, [])),
   ("record_message", fun p => _func_record_message o p db call language),
   ("leave_message", fun p => _func_record_message o p db call language),
   ("get_order_status", fun p => (_func_get_order_status p, db, []))]

/-- `handlers.get(func_name)` and the dispatch of lines 188–197: run the
matching handler, or answer `_error_response` for an unknown name. -/
def routeFunctionCall (o : Oracle) (db : Option DB) (call : Option CallInfo)
    (func_name : String) (params : Params) (language : String) :
    VapiResult × Option DB × List Job :=
  match List.lookup func_name (handlersTable o db call language) with
  | some handler => handler params
  | none => (_error_response ("Unknown function: " ++ func_name), db, [])

/-- `_handle_function_call` (lines 131–197).  Line 147 evaluates
`payload.detected_language` eagerly (as the default argument of
`params.get`); since the schema lacks that field, the call raises before any
handler is routed. -/
def _handle_function_call (o : Oracle) (db : Option DB)
    (payload : VapiWebhookPayload) :
    Except PyErr (VapiResult × Option DB × List Job) :=
  match payload.function_call with
  | none => .ok (_error_response "Invalid function call payload", db, [])
  | some fc =>
    match detected_language_attr payload with
    | none => .error .attributeError
    | some dl =>
      let language := fc.parameters.detected_language.getD (pyOrStr dl "en")
      .ok (routeFunctionCall o db payload.call fc.name fc.parameters language)

/-- `session.execute(select(Order).where(Order.call_id == call_id))` followed
by `scalar_one_or_none()`: `none` for no match, the row for exactly one, and
`MultipleResultsFound` otherwise. -/
def scalarOneOrNoneOrder (db : DB) (call_id : String) :
    Except PyErr (Option OrderRow) :=
  match db.orders.filter (fun r => r.call_id = some call_id) with
  | [] => .ok none
  | [r] => .ok (some r)
  | _ => .error .multipleResults

/-- `scalar_one_or_none()` over `CallLog.call_id == call_id`. -/
def scalarOneOrNoneCallLog (db : DB) (call_id : String) :
    Except PyErr (Option CallLogRow) :=
  match db.call_logs.filter (fun r => r.call_id = call_id) with
  | [] => .ok none
  | [r] => .ok (some r)
  | _ => .error .multipleResults

/-- Mutate the order row with the given primary key. -/
def updateOrderRow (db : DB) (id : ℕ) (f : OrderRow → OrderRow) : DB :=
  { db with orders := db.orders.map (fun r => if r.id = id then f r else r) }

/-- Mutate the call-log row with the given primary key. -/
def updateCallLogRow (db : DB) (id : ℕ) (f : CallLogRow → CallLogRow) : DB :=
  { db with call_logs := db.call_logs.map (fun r => if r.id = id then f r else r) }

/-- The response dict a webhook returns to the voice provider. -/
inductive WebhookResponse where
  | result (r : VapiResult)
  | acknowledged
  | transferResp (transfer_number : Option String)
deriving DecidableEq

/-- `_handle_end_of_call` (lines 834–878).  Line 843 reads
`payload.duration_seconds`, a field the schema lacks: pydantic raises
`AttributeError` there, before the database block, for every report.  The
intended body (lines 846–877) follows the missing-attribute gate: patch the
matching order row, then the matching call-log row; an exception inside the
inner `try` leaves already-committed patches in place and is swallowed. -/
def _handle_end_of_call (o : Oracle) (db : Option DB)
    (payload : VapiWebhookPayload) :
    Except PyErr (WebhookResponse × Option DB) :=
  match duration_seconds_attr payload with
  | none => .error .attributeError
  | some dur =>
    match db, payload.call with
    | some db, some call =>
      let step1 : DB × Bool :=
        match scalarOneOrNoneOrder db call.id with
        | .error _ => (db, true)
        | .ok none => (db, false)
        | .ok (some o_) =>
          (updateOrderRow db o_.id (fun r =>
            { r with call_transcription := payload.transcript
                     call_recording_url := payload.recording_url
                     call_duration_seconds := dur
                     updated_at := some o.now }), false)
      let db2 :=
        if step1.2 then step1.1
        else
          match scalarOneOrNoneCallLog step1.1 call.id with
          | .error _ => step1.1
          | .ok none => step1.1
          | .ok (some cl) =>
            updateCallLogRow step1.1 cl.id (fun r =>
              { r with transcription := payload.transcript
                       recording_url := payload.recording_url
                       call_duration_seconds := dur
                       call_ended_at := some o.now })
      .ok (.acknowledged, some db2)
    | db?, _ => .ok (.acknowledged, db?)

/-- `_handle_status_update` (lines 880–890). -/
def _handle_status_update (_payload : VapiWebhookPayload) : WebhookResponse :=
  .acknowledged

/-- `_handle_transfer_request` (lines 892–922). -/
def _handle_transfer_request (o : Oracle) (db : Option DB)
    (payload : VapiWebhookPayload) : WebhookResponse × Option DB :=
  let call_id := match payload.call with
    | some c => c.id
    | none => "unknown"
  let db' :=
    match db with
    | none => none
    | some db =>
      some (match scalarOneOrNoneOrder db call_id with
        | .error _ => db
        | .ok none => db
        | .ok (some o_) =>
          updateOrderRow db o_.id (fun r =>
            { r with transferred_to_human := true
                     status := OrderStatus.TRANSFERRED_TO_HUMAN
                     transfer_reason := some "AI requested transfer"
                     updated_at := some o.now }))
  (.transferResp o.human_transfer_number, db')

/-- `VapiWebhookHandler.handle_webhook` (lines 107–129). -/
def handle_webhook (o : Oracle) (db : Option DB) (payload : VapiWebhookPayload) :
    Except PyErr (WebhookResponse × Option DB × List Job) :=
  if payload.type = "function-call" then
    (_handle_function_call o db payload).map (fun r => (.result r.1, r.2.1, r.2.2))
  else if payload.type = "end-of-call-report" then
    (_handle_end_of_call o db payload).map (fun r => (r.1, r.2, []))
  else if payload.type = "status-update" then
    .ok (_handle_status_update payload, db, [])
  else if payload.type = "transfer-request" then
    let r := _handle_transfer_request o db payload
    .ok (r.1, r.2, [])
  else
    .ok (.acknowledged, db, [])

/-- The `/webhook/vapi` endpoint (`app/main.py`, lines 218–248): any exception
is caught and answered with the generic failure envelope; an exception is
raised before any database mutation, so the session state is unchanged. -/
def vapi_webhook (o : Oracle) (db : Option DB) (payload : VapiWebhookPayload) :
    WebhookResponse × Option DB × List Job :=
  match handle_webhook o db payload with
  | .ok r => r
  | .error _ =>
    (.result (_error_response "Sorry, there was an error. Please try again."), db, [])

/-! ## Stripe payment webhook (`app/main.py`, lines 278–330) -/

/-- A verified `checkout.session` event as the handler reads it:
`type`, `data.object.metadata.order_id` (already parsed to the integer key;
absent or empty is `none`) and `data.object.payment_intent`. -/
structure StripeEvent where
  type : String
  metadata_order_id : Option ℕ := none
  payment_intent : Option String := none
deriving DecidableEq

/-- `stripe_webhook` (`app/main.py`, lines 278–330) after signature
verification: on `checkout.session.completed` with an order id in metadata,
look the order up by primary key and - unconditionally, with no check of the
current status - mark it paid, stamp `sent_to_kitchen_at` with the current
time and queue a kitchen job.  Returns the new session state and the queued
jobs; the HTTP body is `{"status": "received"}` on every path. -/
def stripe_webhook (now : ℕ) (db : DB) (event : StripeEvent) : DB × List Job :=
  if event.type = "checkout.session.completed" then
    match event.metadata_order_id with
    | some order_id =>
      match db.orders.find? (fun r => r.id = order_id) with
      | some _ =>
        ({ db with orders := db.orders.map (fun r =>
            if r.id = order_id then
              { r with payment_status := "paid"
                       payment_intent_id := event.payment_intent
                       status := OrderStatus.PAID
                       sent_to_kitchen := true
                       sent_to_kitchen_at := some now
                       updated_at := some now }
            else r) },
         [Job.sendToKitchen order_id])
      | none => (db, [])
    | none => (db, [])
  else (db, [])

/-! ## The direct order-create API (`app/main.py`, lines 337–461)

`app/main.py` imports a fixed list of names (lines 36–58); `OrderTypeEnum`
(defined in `app/schemas.py`) is not among them, yet line 348 evaluates it.
Python resolves global names at run time, so every request raises
`NameError`, which the `except Exception` clause turns into HTTP 500. -/

/-- The global names bound in `app/main.py`'s module scope: its imports
(lines 16–58) and its own module-level definitions. -/
def mainModuleScope : List String :=
  ["asyncio", "sys", "json", "logging", "datetime", "timedelta", "Any",
   "Optional", "asynccontextmanager", "FastAPI", "HTTPException", "Depends",
   "Query", "Request", "Header", "BackgroundTasks", "JSONResponse",
   "HTMLResponse", "Jinja2Templates", "CORSMiddleware", "AsyncSession",
   "select", "func", "and_", "redis", "get_settings", "setup_logging",
   "get_db", "init_db", "engine", "Order", "OrderStatus", "OrderType",
   "CallLog", "CallOutcome", "OrderCreate", "OrderResponse",
   "OrderCreateResponse", "OrderListResponse", "CallLogCreate",
   "CallLogResponse", "ErrorResponse", "HealthResponse",
   "SendPaymentLinkRequest", "NotificationResponse", "KitchenOrderRequest",
   "KitchenOrderResponse", "get_payment_service", "get_geo_service",
   "get_notification_service", "get_vapi_handler", "VapiWebhookPayload",
   "export_order_to_excel", "export_call_log_to_excel", "send_to_kitchen",
   "settings", "setup_logging", "logger", "templates", "lifespan", "app",
   "calculate_totals", "root", "health_check", "vapi_webhook",
   "simulation_webhook", "stripe_webhook", "create_order", "list_orders",
   "get_order", "update_order_status", "send_payment_link",
   "send_order_to_kitchen", "list_call_logs", "dashboard_page",
   "dashboard_data", "global_exception_handler"]

/-- The `OrderCreate` request schema (`app/schemas.py`, lines 70–135), after
pydantic validation; `order_type` is the enum's string value. -/
structure OrderCreateReq where
  order_type : String := "delivery"
  customer_name : String
  customer_phone : String
  customer_email : Option String := none
  customer_language : String := "en"
  delivery_address : Option String := none
  city : String := "New York"
  state : String := "NY"
  zip_code : Option String := none
  delivery_instructions : Option String := none
  pickup_time : Option ℕ := none
  items : List OrderItemCreate
  special_instructions : Option String := none
  payment_method : String := "card"
  tip : Option ℚ := some 0
  call_id : Option String := none
  call_transcription : Option String := none
  call_recording_url : Option String := none
deriving DecidableEq

/-- An `HTTPException`. -/
structure HTTPError where
  status_code : ℕ
  detail : String
deriving DecidableEq

/-- `OrderCreateResponse` (`app/schemas.py`). -/
structure OrderCreateResponse where
  success : Bool
  message : String
  order_id : ℕ
  order_type : String
  total_amount : ℚ
  payment_status : String
  estimated_time : String
deriving DecidableEq

/-- `POST /api/orders` (`app/main.py`, lines 337–461), with `MockGeoService`
as the geo backend.  Line 348 compares against `OrderTypeEnum.DELIVERY`; the
guard on `mainModuleScope` models Python's run-time global-name lookup: the
name is unbound, so the lookup raises `NameError` and the endpoint answers
HTTP 500 with no session mutation.  The rest of the body (the code as it
would run were the name in scope) follows the guard. -/
def create_order_api (rand : GeoRand) (now : ℕ) (db : DB)
    (order_data : OrderCreateReq) :
    Except HTTPError (OrderCreateResponse × DB × List Job) :=
  if "OrderTypeEnum" ∉ mainModuleScope then
    .error { status_code := 500, detail := "name 'OrderTypeEnum' is not defined" }
  else
    let validated : Except HTTPError (Option String) :=
      if order_data.order_type = "delivery" then
        let geo_result := MockGeoService.validate_address rand
          (order_data.delivery_address.getD "") order_data.city
          (order_data.zip_code.getD "") order_data.state
        if ¬ geo_result.is_valid then
          .error { status_code := 400, detail := pyStrOpt geo_result.error_message }
        else if ¬ geo_result.is_in_delivery_zone then
          .error { status_code := 400, detail := pyStrOpt geo_result.error_message }
        else .ok geo_result.formatted_address
      else .ok none
    match validated with
    | .error e => .error e
    | .ok formatted_address =>
      let totals := calculate_totals order_data.items order_data.order_type
        (order_data.tip.getD 0)
      let order_type := if order_data.order_type = "pickup" then OrderType.PICKUP
        else OrderType.DELIVERY
      let new_order : OrderRow :=
        { id := db.next_order_id
          order_type := order_type
          customer_name := order_data.customer_name
          customer_phone := order_data.customer_phone
          customer_email := order_data.customer_email
          customer_language := order_data.customer_language
          delivery_address := formatted_address
          city := some order_data.city
          state := some order_data.state
          zip_code := order_data.zip_code
          delivery_instructions := order_data.delivery_instructions
          pickup_time := order_data.pickup_time
          items := order_data.items.map (fun i =>
            { name := i.name, quantity := (i.quantity : ℚ), unit_price := i.unit_price })
          special_instructions := order_data.special_instructions
          subtotal := totals.subtotal
          tax := totals.tax
          delivery_fee := totals.delivery_fee
          tip := totals.tip
          total_amount := totals.total_amount
          payment_method := some order_data.payment_method
          status := OrderStatus.PENDING
          call_id := order_data.call_id
          call_transcription := order_data.call_transcription
          call_recording_url := order_data.call_recording_url
          created_at := now }
      let db' : DB := { db with
        orders := db.orders ++ [new_order]
        next_order_id := db.next_order_id + 1 }
      let estimated := if order_type = OrderType.PICKUP then "20-30 minutes"
        else toString Settings.estimated_delivery_minutes ++ " minutes"
      .ok ({ success := true
             message := "Order created successfully!"
             order_id := new_order.id
             order_type := if order_type = OrderType.PICKUP then "pickup" else "delivery"
             total_amount := new_order.total_amount
             payment_status := new_order.payment_status
             estimated_time := estimated },
           db', [Job.exportOrder new_order.id])

/-! ## Concrete instances used by the verification -/

/-- Orders currently recorded for a call id. -/
def countOrdersForCall (db : DB) (cid : String) : ℕ :=
  (db.orders.filter (fun r => r.call_id = some cid)).length

/-- A `PAYMENT_PENDING` delivery order awaiting its payment webhook. -/
def c1Row : OrderRow :=
  { id := 1, order_type := OrderType.DELIVERY, customer_name := "Jane",
    customer_phone := "5551234567", items := [], subtotal := 0, tax := 0,
    delivery_fee := 0, tip := 0, total_amount := 0,
    status := OrderStatus.PAYMENT_PENDING, created_at := 0 }

/-- A session holding only `c1Row`. -/
def c1Db0 : DB := { orders := [c1Row], call_logs := [] }

/-- The same order already marked `PAID` by a first webhook delivery at
time 1. -/
def c1PaidRow : OrderRow :=
  { c1Row with
    payment_status := "paid"
    payment_intent_id := some "pi_1"
    status := OrderStatus.PAID
    sent_to_kitchen := true
    sent_to_kitchen_at := some 1
    updated_at := some 1 }

/-- A session holding only the already-`PAID` order. -/
def c1DbPaid : DB := { orders := [c1PaidRow], call_logs := [] }

/-- A verified `checkout.session.completed` event for order 1. -/
def c1Event : StripeEvent :=
  { type := "checkout.session.completed"
    metadata_order_id := some 1
    payment_intent := some "pi_1" }

/-- A `create_order` parameter set with one item. -/
def c2Params : Params := { items := some [{ name := some "pizza margherita" }] }

/-- The voice call the duplicate `create_order` calls belong to. -/
def c2Call : Option CallInfo := some { id := "call_1" }

/-- An empty session. -/
def c2Db0 : DB := { orders := [], call_logs := [] }

/-- A well-formed address whose zip code `99999` is outside the configured
delivery zone. -/
def c3Params : Params :=
  { address := some "350 Fifth Avenue"
    city := some "New York"
    zip_code := some "99999"
    state := some "NY" }

/-- A `create_order` parameter set carrying a caller-supplied payment id. -/
def c10Params : Params :=
  { items := some [{ name := some "Pizza Margherita", quantity := some 1,
                     unit_price := some 14.99 }]
    payment_id := some "pi_123" }

/-! ## Helper lemmas -/

theorem roundHalfEven_intCast (n : ℤ) : roundHalfEven (n : ℚ) = n := by
  simp [roundHalfEven]

theorem pyRound2_centValued {x : ℚ} (h : centValued x) : pyRound2 x = x := by
  obtain ⟨n, rfl⟩ := h
  have h100 : ((n : ℚ) / 100) * 100 = (n : ℚ) := by
    field_simp
  rw [pyRound2, h100, roundHalfEven_intCast]

theorem centValued_add {x y : ℚ} (hx : centValued x) (hy : centValued y) :
    centValued (x + y) := by
  obtain ⟨n, rfl⟩ := hx
  obtain ⟨m, rfl⟩ := hy
  exact ⟨n + m, by push_cast; ring⟩

theorem centValued_natMul {x : ℚ} (q : ℕ) (hx : centValued x) :
    centValued ((q : ℚ) * x) := by
  obtain ⟨n, rfl⟩ := hx
  exact ⟨(q : ℤ) * n, by push_cast; ring⟩

theorem centValued_zero : centValued 0 := ⟨0, by norm_num⟩

theorem rawSubtotal_centValued {items : List OrderItemCreate}
    (h : ∀ i ∈ items, centValued i.unit_price) : centValued (rawSubtotal items) := by
  induction items with
  | nil => exact centValued_zero
  | cons i rest ih =>
    rw [rawSubtotal, List.map_cons, List.sum_cons]
    exact centValued_add (centValued_natMul i.quantity (h i (by simp)))
      (ih (fun j hj => h j (by simp [hj])))

theorem find?_first {α : Type} (p : α → Bool) (l : List α) (a : α)
    (h : l.find? p = some a) :
    ∃ pre post, l = pre ++ a :: post ∧ p a = true ∧ ∀ x ∈ pre, p x = false := by
  induction l with
  | nil => simp [List.find?] at h
  | cons x xs ih =>
    by_cases hp : p x
    · rw [List.find?_cons_of_pos _ hp] at h
      injection h with h
      subst h
      exact ⟨[], xs, rfl, hp, by simp⟩
    · rw [List.find?_cons_of_neg _ (by simpa using hp)] at h
      obtain ⟨pre, post, rfl, hpa, hpre⟩ := ih h
      refine ⟨x :: pre, post, rfl, hpa, ?_⟩
      intro y hy
      rcases List.mem_cons.mp hy with rfl | hy
      · simpa using hp
      · exact hpre y hy

theorem append_ne_empty {a : String} (b : String) (h : a ≠ "") : a ++ b ≠ "" := by
  intro hc
  apply h
  have hd := congrArg String.data hc
  rw [String.data_append] at hd
  rcases List.append_eq_nil.mp hd with ⟨h1, -⟩
  cases a
  simp_all

theorem create_order_appends (o : Oracle) (params : Params) (db : DB)
    (call_info : Option CallInfo) (language : String)
    (h : parseCreateItems params ≠ []) :
    (_func_create_order o params (some db) call_info language).2.1 =
      some { db with
        orders := db.orders ++
          [createOrderRow o.now params call_info language db.next_order_id]
        next_order_id := db.next_order_id + 1 } ∧
    (_func_create_order o params (some db) call_info language).1.success = true := by
  constructor <;> simp [_func_create_order, h]

theorem payment_truthy_iff (params : Params)
    (hp1 : ∀ s, params.payment_id = some s → s ≠ "")
    (hp2 : ∀ s, params.payment_intent_id = some s → s ≠ "") :
    (truthyStr (extractPaymentId params) = true ↔
      (params.payment_id ≠ none ∨ params.payment_intent_id ≠ none)) := by
  unfold extractPaymentId
  cases hpd : params.payment_id with
  | some s =>
    have hs := hp1 s hpd
    simp [truthyStr, hs, Option.orElse]
  | none =>
    cases hpi : params.payment_intent_id with
    | some t =>
      have ht := hp2 t hpi
      simp [truthyStr, ht, Option.orElse]
    | none => simp [truthyStr, Option.orElse]

theorem msg_wants (p : Params) : (_func_check_wants_to_order p).message ≠ "" := by
  simp only [_func_check_wants_to_order]
  repeat' split
  all_goals first
    | ((repeat apply append_ne_empty); decide)
    | simp [_error_response]

theorem msg_select (p : Params) : (_func_select_order_type p).message ≠ "" := by
  simp only [_func_select_order_type]
  repeat' split
  all_goals first
    | ((repeat apply append_ne_empty); decide)
    | simp [_error_response]

theorem msg_check_address (g : GeoRand) (p : Params) :
    (_func_check_address g p).message ≠ "" := by
  simp only [_func_check_address]
  repeat' split
  all_goals first
    | ((repeat apply append_ne_empty); decide)
    | simp [_error_response]

theorem msg_get_menu (p : Params) : (_func_get_menu p).message ≠ "" := by
  simp only [_func_get_menu]
  (repeat apply append_ne_empty); decide

theorem msg_add_items (p : Params) : (_func_add_items p).message ≠ "" := by
  simp only [_func_add_items]
  repeat' split
  all_goals first
    | ((repeat apply append_ne_empty); decide)
    | simp [_error_response]

theorem msg_remove_item (p : Params) : (_func_remove_item p).message ≠ "" := by
  simp only [_func_remove_item]
  repeat' split
  all_goals first
    | ((repeat apply append_ne_empty); decide)
    | simp [_error_response]

theorem msg_summary (p : Params) : (_func_get_order_summary p).message ≠ "" := by
  simp only [_func_get_order_summary]
  (repeat apply append_ne_empty); decide

theorem msg_confirm (p : Params) : (_func_confirm_order p).message ≠ "" := by
  simp only [_func_confirm_order]
  repeat' split
  all_goals first
    | ((repeat apply append_ne_empty); decide)
    | simp [_error_response]

theorem msg_process_payment (o : Oracle) (p : Params) :
    (_func_process_payment o p).message ≠ "" := by
  simp only [_func_process_payment]
  split
  all_goals first
    | ((repeat apply append_ne_empty); decide)
    | simp [_error_response]

theorem msg_transfer (o : Oracle) (p : Params) :
    (_func_transfer_to_human o p).message ≠ "" := by
  simp only [_func_transfer_to_human]
  split
  all_goals first
    | ((repeat apply append_ne_empty); decide)
    | simp [_error_response]

theorem msg_order_status (p : Params) : (_func_get_order_status p).message ≠ "" := by
  simp only [_func_get_order_status]
  split
  all_goals first
    | ((repeat apply append_ne_empty); decide)
    | simp [_error_response]

theorem msg_create_order (o : Oracle) (p : Params) (db : Option DB)
    (ci : Option CallInfo) (lang : String) :
    (_func_create_order o p db ci lang).1.message ≠ "" := by
  simp only [_func_create_order]
  repeat' split
  all_goals first
    | ((repeat apply append_ne_empty); decide)
    | simp [_error_response]

theorem msg_record_message (o : Oracle) (p : Params) (db : Option DB)
    (ci : Option CallInfo) (lang : String) :
    (_func_record_message o p db ci lang).1.message ≠ "" := by
  simp only [_func_record_message]
  repeat' split
  all_goals first
    | ((repeat apply append_ne_empty); decide)
    | simp [_error_response]

theorem lookup_mem {β : Type} (l : List (String × β)) (a : String) (b : β)
    (h : List.lookup a l = some b) : (a, b) ∈ l := by
  induction l with
  | nil => simp [List.lookup] at h
  | cons x xs ih =>
    rw [List.lookup] at h
    by_cases he : a == x.1
    · simp only [he] at h
      injection h with h
      subst h
      have : a = x.1 := by simpa using he
      subst this
      exact List.mem_cons_self _ _
    · simp only [Bool.not_eq_true] at he
      rw [he] at h
      exact List.mem_cons_of_mem _ (ih h)

theorem route_message (o : Oracle) (db : Option DB) (call : Option CallInfo)
    (fn : String) (p : Params) (lang : String) :
    (routeFunctionCall o db call fn p lang).1.message ≠ "" := by
  unfold routeFunctionCall
  cases hlk : List.lookup fn (handlersTable o db call lang) with
  | none =>
    simp only [hlk]
    apply append_ne_empty
    decide
  | some handler =>
    simp only [hlk]
    have hmem := lookup_mem _ _ _ hlk
    simp only [handlersTable, List.mem_cons, List.not_mem_nil, or_false] at hmem
    rcases hmem with h | h | h | h | h | h | h | h | h | h | h | h | h | h | h | h | h | h
    all_goals (
      injection h with h1 h2
      subst h2
      first
        | exact msg_wants p
        | exact msg_select p
        | exact msg_check_address o.geo p
        | exact msg_get_menu p
        | exact msg_add_items p
        | exact msg_remove_item p
        | exact msg_confirm p
        | exact msg_summary p
        | exact msg_process_payment o p
        | exact msg_create_order o p db call lang
        | exact msg_transfer o p
        | exact msg_record_message o p db call lang
        | exact msg_order_status p)

/-! ## The claims -/

/-- C1 (counterexample): replaying the same `checkout.session.completed`
webhook on an order that is already `PAID` is not a no-op: the second
delivery re-stamps `sent_to_kitchen_at` and `updated_at` (1 becomes 2) and
enqueues a second kitchen-send job for the same order. -/
theorem C1_counterexample :
    ((stripe_webhook 1 c1Db0 c1Event).1.orders.map
        (fun r => (r.status, r.sent_to_kitchen_at, r.updated_at))
      = [(OrderStatus.PAID, some 1, some 1)]) ∧
    ((stripe_webhook 2 (stripe_webhook 1 c1Db0 c1Event).1 c1Event).1.orders.map
        (fun r => (r.status, r.sent_to_kitchen_at, r.updated_at))
      = [(OrderStatus.PAID, some 2, some 2)]) ∧
    (stripe_webhook 1 c1Db0 c1Event).2 = [Job.sendToKitchen 1] ∧
    (stripe_webhook 2 (stripe_webhook 1 c1Db0 c1Event).1 c1Event).2
      = [Job.sendToKitchen 1] := by
  refine ⟨?_, ?_, ?_, ?_⟩ <;>
    simp [stripe_webhook, c1Db0, c1Row, c1Event, List.find?]

/-- C1 (amended): the payment webhook applies the paid update
unconditionally on every delivery of a `checkout.session.completed` event
whose metadata names an existing order: the order ends `PAID` with
`payment_status = "paid"`, but each delivery (replays included, and with no
check of the current status) re-stamps `sent_to_kitchen_at`/`updated_at`
with the delivery time and enqueues another kitchen-send job - there is no
at-most-once idempotency guard. -/
theorem C1_replay_not_noop (now : ℕ) (db : DB) (event : StripeEvent) (oid : ℕ)
    (h1 : event.type = "checkout.session.completed")
    (h2 : event.metadata_order_id = some oid)
    (h3 : ∃ r ∈ db.orders, r.id = oid) :
    (stripe_webhook now db event).2 = [Job.sendToKitchen oid] ∧
    (stripe_webhook now db event).1.orders = db.orders.map (fun r =>
      if r.id = oid then
        { r with payment_status := "paid"
                 payment_intent_id := event.payment_intent
                 status := OrderStatus.PAID
                 sent_to_kitchen := true
                 sent_to_kitchen_at := some now
                 updated_at := some now }
      else r) := by
  obtain ⟨r, hr, hid⟩ := h3
  cases hfind : db.orders.find? (fun r => r.id = oid) with
  | none =>
    rw [List.find?_eq_none] at hfind
    exact absurd (by simpa using hfind r hr) (by simp [hid])
  | some r' =>
    constructor <;> simp [stripe_webhook, h1, h2, hfind]

/-- C1 (witness): the amended theorem applied to an already-`PAID` order
(first delivery stamped time 1): the second delivery at time 2 still
dispatches a kitchen job and re-stamps the timestamps. -/
theorem C1_replay_not_noop_witness :
    (stripe_webhook 2 c1DbPaid c1Event).2 = [Job.sendToKitchen 1] ∧
    (stripe_webhook 2 c1DbPaid c1Event).1.orders = c1DbPaid.orders.map (fun r =>
      if r.id = 1 then
        { r with payment_status := "paid"
                 payment_intent_id := c1Event.payment_intent
                 status := OrderStatus.PAID
                 sent_to_kitchen := true
                 sent_to_kitchen_at := some 2
                 updated_at := some 2 }
      else r) :=
  C1_replay_not_noop 2 c1DbPaid c1Event 1 rfl rfl
    ⟨c1PaidRow, by simp [c1DbPaid], rfl⟩

/-- C2 (counterexample): starting from an empty store, two successive
`create_order` function calls for the same call id `"call_1"` (the second
arriving when an order for that call id already exists) leave two persisted
Order rows for that call id, not one. -/
theorem C2_counterexample :
    ((_func_create_order {} c2Params
        ((_func_create_order {} c2Params (some c2Db0) c2Call "en").2.1)
        c2Call "en").2.1.map
      (fun db => (db.orders.filter (fun r => r.call_id = some "call_1")).length))
      = some 2 := by
  have hne : parseCreateItems c2Params ≠ [] := by
    simp [parseCreateItems, getItemsParam, c2Params]
  rw [(create_order_appends {} c2Params c2Db0 c2Call "en" hne).1]
  rw [(create_order_appends {} c2Params _ c2Call "en" hne).1]
  have hcid : ∀ n, (createOrderRow 0 c2Params c2Call "en" n).call_id = some "call_1" :=
    fun n => rfl
  simp [c2Db0, List.filter, hcid]

/-- C2 (amended): `_func_create_order` performs no lookup by call id and no
detect-and-reuse: every successful call unconditionally inserts a fresh
Order row, so the count of rows for the call's id always grows by one even
when an order for that call id already exists - a second call for the same
call id leaves two rows. -/
theorem C2_no_reuse (o : Oracle) (params : Params) (db : DB)
    (call_info : Option CallInfo) (language : String)
    (h : parseCreateItems params ≠ []) :
    ∃ db', (_func_create_order o params (some db) call_info language).2.1 = some db' ∧
      ∀ cid, countOrdersForCall db' cid =
        countOrdersForCall db cid +
          (if call_info.map (fun c => c.id) = some cid then 1 else 0) := by
  refine ⟨_, (create_order_appends o params db call_info language h).1, ?_⟩
  intro cid
  have hcid : (createOrderRow o.now params call_info language db.next_order_id).call_id
      = call_info.map (fun c => c.id) := rfl
  simp only [countOrdersForCall, List.filter_append, List.length_append, hcid]
  by_cases hc : call_info.map (fun c => c.id) = some cid <;>
    simp [hc, List.filter, hcid]

/-- C2 (witness): the amended theorem applied to a store that already holds
one order for `"call_1"` (the result of a first call): the second call
makes it two. -/
theorem C2_no_reuse_witness :
    ∃ db', (_func_create_order {} c2Params
        (some { orders := [createOrderRow 0 c2Params c2Call "en" 1], call_logs := []
                next_order_id := 2 })
        c2Call "en").2.1 = some db' ∧
      ∀ cid, countOrdersForCall db' cid =
        countOrdersForCall
          { orders := [createOrderRow 0 c2Params c2Call "en" 1], call_logs := []
            next_order_id := 2 } cid +
          (if c2Call.map (fun c => c.id) = some cid then 1 else 0) :=
  C2_no_reuse {} c2Params _ c2Call "en"
    (by simp [parseCreateItems, getItemsParam, c2Params])

/-- C3 (counterexample): for the well-formed address "350 Fifth Avenue" with
the unconfigured zip code "99999", `MockGeoService.validate_address` returns
`is_valid = false` (the claim expects `true`), and `check_delivery_address`
answers with the could-not-find-address re-prompt, without the
`suggest_pickup` field. -/
theorem C3_counterexample :
    (MockGeoService.validate_address {} "350 Fifth Avenue" "New York" "99999" "NY").is_valid
        = false ∧
    ("99999" ∉ Settings.valid_zip_codes_list) ∧
    ("350 Fifth Avenue".data.all (fun c => c.isWhitespace) = false) ∧
    (_func_check_address {} c3Params).suggest_pickup = none ∧
    (_func_check_address {} c3Params).message
      = "I couldn't find that address. Could you please repeat it?" := by
  refine ⟨?_, by decide, by decide, ?_, ?_⟩ <;>
    simp [MockGeoService.validate_address, _func_check_address, c3Params,
      Settings.valid_zip_codes_list]

/-- C3 (amended): for every non-empty (not all-whitespace) address whose zip
code is outside the configured delivery zone, `validate_address` (with no
injected mock failure) returns `is_valid = false` and `is_in_delivery_zone =
false` with error code `outside_delivery_zone` - the valid-but-out-of-zone
outcome `isValid = true ∧ isInZone = false` is never produced - and
`check_delivery_address` therefore answers with the could-not-find-address
re-prompt rather than the pickup-fallback (`suggest_pickup`) response, which
requires `is_valid ∧ ¬is_in_delivery_zone` and is unreachable with this geo
service. -/
theorem C3_out_of_zone_invalid (rand : GeoRand) (address city zip_code state : String)
    (hfail : rand.shouldFail = false)
    (haddr : address.data.all (fun c => c.isWhitespace) = false)
    (hzip : zip_code ∉ Settings.valid_zip_codes_list) :
    (MockGeoService.validate_address rand address city zip_code state).is_valid = false ∧
    (MockGeoService.validate_address rand address city zip_code state).is_in_delivery_zone
      = false ∧
    (MockGeoService.validate_address rand address city zip_code state).error_code
      = some "outside_delivery_zone" ∧
    ∀ params : Params,
      params.address = some address → params.city = some city →
      (params.zip_code <|> params.zipCode) = some zip_code →
      params.state = some state →
      (_func_check_address rand params).success = false ∧
      (_func_check_address rand params).suggest_pickup = none ∧
      (_func_check_address rand params).message
        = "I couldn't find that address. Could you please repeat it?" := by
  refine ⟨?_, ?_, ?_, ?_⟩
  · simp [MockGeoService.validate_address, hfail, haddr, hzip]
  · simp [MockGeoService.validate_address, hfail, haddr, hzip]
  · simp [MockGeoService.validate_address, hfail, haddr, hzip]
  · intro params h1 h2 h3 h4
    refine ⟨?_, ?_, ?_⟩ <;>
      simp [_func_check_address, h1, h2, h3, h4,
        MockGeoService.validate_address, hfail, haddr, hzip]

/-- C3 (witness): the amended theorem applied to "350 Fifth Avenue",
zip "99999". -/
theorem C3_out_of_zone_invalid_witness :
    (MockGeoService.validate_address {} "350 Fifth Avenue" "New York" "99999" "NY").is_in_delivery_zone
        = false ∧
    (_func_check_address {} c3Params).success = false :=
  have h := C3_out_of_zone_invalid {} "350 Fifth Avenue" "New York" "99999" "NY"
    rfl (by decide) (by decide)
  ⟨h.2.1, (h.2.2.2 c3Params rfl rfl rfl rfl).1⟩

/-- C4: for every item list (with cent-valued unit prices), order type and
tip, `calculate_totals` returns `subtotal = round2 (Σ quantity·unit_price)`,
`tax = round2 (subtotal · tax_rate)`, the fixed delivery fee for delivery
orders and 0 for pickup orders, and `total = round2 (subtotal + tax +
delivery_fee + tip)`; in particular, for 2 × Pizza Margherita at $14.99 with
tax rate 0.08875 and delivery fee $5.99 the totals are $29.98 subtotal,
$2.66 tax and $38.63 total. -/
theorem C4_totals :
    (∀ (items : List OrderItemCreate) (order_type : String) (tip : ℚ),
      (∀ i ∈ items, centValued i.unit_price) →
      ((calculate_totals items order_type tip).subtotal
          = pyRound2 (rawSubtotal items) ∧
        (calculate_totals items order_type tip).tax
          = pyRound2 ((calculate_totals items order_type tip).subtotal *
              Settings.tax_rate) ∧
        (order_type = "delivery" →
          (calculate_totals items order_type tip).delivery_fee = Settings.delivery_fee) ∧
        (order_type = "pickup" →
          (calculate_totals items order_type tip).delivery_fee = 0) ∧
        (calculate_totals items order_type tip).total_amount
          = pyRound2 ((calculate_totals items order_type tip).subtotal
              + (calculate_totals items order_type tip).tax
              + (calculate_totals items order_type tip).delivery_fee + tip))) ∧
    calculate_totals [⟨"Pizza Margherita", 2, 14.99⟩] "delivery" 0
      = ⟨29.98, 2.66, 5.99, 0, 38.63⟩ := by
  constructor
  · intro items order_type tip h
    have hre : pyRound2 (rawSubtotal items) = rawSubtotal items :=
      pyRound2_centValued (rawSubtotal_centValued h)
    refine ⟨rfl, ?_, ?_, ?_, ?_⟩
    · simp only [calculate_totals]
      rw [hre]
    · intro ho
      simp [calculate_totals, ho]
    · intro ho
      simp [calculate_totals, ho]
    · simp only [calculate_totals]
      rw [hre]
  · norm_num [calculate_totals, rawSubtotal, pyRound2, roundHalfEven,
      Settings.tax_rate, Settings.delivery_fee, Totals.mk.injEq]

/-- C4 (witness): the general clauses applied to the concrete one-item
order. -/
theorem C4_totals_witness :
    (calculate_totals [⟨"Pizza Margherita", 2, 14.99⟩] "delivery" 0).tax
      = pyRound2 ((calculate_totals [⟨"Pizza Margherita", 2, 14.99⟩] "delivery" 0).subtotal
          * Settings.tax_rate) ∧
    (calculate_totals [⟨"Pizza Margherita", 2, 14.99⟩] "delivery" 0).delivery_fee
      = Settings.delivery_fee :=
  have happ := C4_totals.1 [⟨"Pizza Margherita", 2, 14.99⟩] "delivery" 0
    (by
      rintro i hi
      simp only [List.mem_singleton] at hi
      subst hi
      exact ⟨1499, by norm_num⟩)
  ⟨happ.2.1, happ.2.2.1 rfl⟩

/-- C5: every request to the direct order-create API raises
`NameError` - line 348 of `app/main.py` evaluates `OrderTypeEnum`, a name its
module scope does not bind - so the endpoint answers HTTP 500 and persists
nothing, for valid and invalid orders alike. -/
theorem C5_name_error (rand : GeoRand) (now : ℕ) (db : DB)
    (order_data : OrderCreateReq) :
    create_order_api rand now db order_data =
      .error { status_code := 500, detail := "name 'OrderTypeEnum' is not defined" } := by
  have h : "OrderTypeEnum" ∉ mainModuleScope := by decide
  simp [create_order_api, h]

/-- C6: a `create_order` function call whose `items` parameter is the empty
list (and whose `current_order` fallback is also empty) is rejected with
`success = false` and a re-prompt message, and the session state is
unchanged - no Order row is created and no job queued. -/
theorem C6_empty_items (o : Oracle) (params : Params) (db : DB)
    (call_info : Option CallInfo) (language : String)
    (hitems : params.items = some [] ∨ params.items = none)
    (hcur : params.current_order = some [] ∨ params.current_order = none) :
    (_func_create_order o params (some db) call_info language).1.success = false ∧
    (_func_create_order o params (some db) call_info language).1.message
      = "I don't have any items in your order. What would you like to order?" ∧
    (_func_create_order o params (some db) call_info language).2.1 = some db ∧
    (_func_create_order o params (some db) call_info language).2.2 = [] := by
  have hraw : getItemsParam params = [] := by
    rcases hitems with h | h <;> rcases hcur with h2 | h2 <;> simp [getItemsParam, h, h2]
  have hparse : parseCreateItems params = [] := by simp [parseCreateItems, hraw]
  simp [_func_create_order, hparse]

/-- C6 (witness): the theorem applied to an explicit empty-items call on an
empty store. -/
theorem C6_empty_items_witness :
    (_func_create_order {} { items := some [] }
        (some { orders := [], call_logs := [] }) none "en").1.success = false ∧
    (_func_create_order {} { items := some [] }
        (some { orders := [], call_logs := [] }) none "en").2.1
      = some { orders := [], call_logs := [] } :=
  have h := C6_empty_items {} { items := some [] } { orders := [], call_logs := [] }
    none "en" (Or.inl rfl) (Or.inr rfl)
  ⟨h.1, h.2.2.1⟩

/-- C7: every end-of-call-report raises `AttributeError` - line 843 of the
handler reads `payload.duration_seconds`, a field `VapiWebhookPayload` does
not declare - before the database block, so the webhook answers the generic
error envelope instead of `{"status": "acknowledged"}` and never patches
transcript/recording metadata onto matching rows (the session state is
unchanged on every path). -/
theorem C7_attribute_error (o : Oracle) (db : Option DB)
    (payload : VapiWebhookPayload)
    (h : payload.type = "end-of-call-report") :
    handle_webhook o db payload = .error PyErr.attributeError ∧
    vapi_webhook o db payload =
      (.result (_error_response "Sorry, there was an error. Please try again."), db, []) := by
  have hne : payload.type ≠ "function-call" := by simp [h]
  constructor
  · simp [handle_webhook, h, hne, _handle_end_of_call, duration_seconds_attr,
      Except.map]
  · simp [vapi_webhook, handle_webhook, h, hne, _handle_end_of_call,
      duration_seconds_attr, Except.map]

/-- C7 (witness): the theorem applied to a concrete report for `"call_1"`
against an empty store. -/
theorem C7_attribute_error_witness :
    handle_webhook {} (some { orders := [], call_logs := [] })
        { type := "end-of-call-report", call := some { id := "call_1" } }
      = .error PyErr.attributeError :=
  (C7_attribute_error {} (some { orders := [], call_logs := [] })
    { type := "end-of-call-report", call := some { id := "call_1" } } rfl).1

/-- C8: in `add_items_to_order`, a requested name is normalised by
lowercasing and replacing spaces with underscores; a menu entry matches
exactly when the normalised name is a substring of the menu key, or the key
a substring of the name, or the name a substring of the lowercased display
name; the added item comes from the first matching entry in menu order; and
when no entry matches any requested item the handler answers
`success = false` with a repeat-request message and adds nothing. -/
theorem C8_fuzzy_matching :
    (∀ (item : PItem) (a : AddedItem), resolveItem item = some a →
      ∃ pre m post, MENU_ITEMS = pre ++ m :: post ∧
        itemMatches (normalizeItemName (item.name.getD "")) m = true ∧
        (∀ m' ∈ pre, itemMatches (normalizeItemName (item.name.getD "")) m' = false) ∧
        a = ⟨m.name, item.quantity.getD 1, m.price,
              pyRound2 ((item.quantity.getD 1) * m.price)⟩) ∧
    (∀ (item_name : String) (m : MenuItem),
      itemMatches item_name m =
        (substrOf item_name m.key || substrOf m.key item_name ||
          substrOf item_name (pyLower m.name))) ∧
    (∀ params : Params,
      (∀ item ∈ params.items.getD [], ∀ m ∈ MENU_ITEMS,
        itemMatches (normalizeItemName (item.name.getD "")) m = false) →
      (_func_add_items params).success = false ∧
      (_func_add_items params).added_items = none ∧
      (_func_add_items params).current_order = none ∧
      (_func_add_items params).message =
        "I'm sorry, I couldn't find that item on our menu. Could you repeat that?") := by
  refine ⟨?_, ?_, ?_⟩
  · intro item a h
    simp only [resolveItem] at h
    cases hfind : MENU_ITEMS.find?
        (fun m => itemMatches (normalizeItemName (item.name.getD "")) m) with
    | none => rw [hfind] at h; simp at h
    | some m =>
      rw [hfind] at h
      obtain ⟨pre, post, hsplit, hmatch, hpre⟩ := find?_first _ _ _ hfind
      refine ⟨pre, m, post, hsplit, hmatch, hpre, ?_⟩
      simpa using h.symm
  · intro item_name m
    rfl
  · intro params h
    have hnone : ∀ item ∈ params.items.getD [], resolveItem item = none := by
      intro item hitem
      simp only [resolveItem]
      rw [List.find?_eq_none.mpr]
      · rfl
      · intro m hm
        simp [h item hitem m hm]
    have hadded : (params.items.getD []).filterMap resolveItem = [] := by
      rw [List.filterMap_eq_nil_iff]
      exact hnone
    refine ⟨?_, ?_, ?_, ?_⟩ <;> simp [_func_add_items, hadded]

/-- C8 (witness): the no-match clause applied to the off-menu request
"sushi". -/
theorem C8_fuzzy_matching_witness :
    (_func_add_items { items := some [{ name := some "sushi" }] }).success = false ∧
    (_func_add_items { items := some [{ name := some "sushi" }] }).added_items = none :=
  have h := C8_fuzzy_matching.2.2 { items := some [{ name := some "sushi" }] }
    (by decide)
  ⟨h.1, h.2.1⟩

/-- C9: whatever handler the function-call dispatcher routes to - the
unknown-function and database-unavailable error paths included - the result
envelope carries a non-empty message; and end to end, every function-call
webhook is answered with a `result` envelope whose message is non-empty
(when the dispatcher itself raises on the undeclared
`payload.detected_language` attribute, the endpoint's catch-all substitutes
the generic non-empty failure message). -/
theorem C9_message_nonempty :
    (∀ (o : Oracle) (db : Option DB) (call : Option CallInfo) (func_name : String)
        (params : Params) (language : String),
      (routeFunctionCall o db call func_name params language).1.message ≠ "") ∧
    (∀ (o : Oracle) (db : Option DB) (payload : VapiWebhookPayload),
      payload.type = "function-call" →
      ∃ r : VapiResult, (vapi_webhook o db payload).1 = WebhookResponse.result r ∧
        r.message ≠ "") := by
  constructor
  · exact fun o db call fn p lang => route_message o db call fn p lang
  · intro o db payload h
    cases hfc : payload.function_call with
    | none =>
      refine ⟨_error_response "Invalid function call payload", ?_, by decide⟩
      simp [vapi_webhook, handle_webhook, h, _handle_function_call, hfc, Except.map]
    | some fc =>
      refine ⟨_error_response "Sorry, there was an error. Please try again.", ?_, by decide⟩
      simp [vapi_webhook, handle_webhook, h, _handle_function_call, hfc,
        detected_language_attr, Except.map]

/-- C9 (witness): the end-to-end clause applied to a concrete `get_menu`
function call. -/
theorem C9_message_nonempty_witness :
    ∃ r : VapiResult,
      (vapi_webhook {} none
          { type := "function-call"
            function_call := some { name := "get_menu", parameters := {} } }).1
        = WebhookResponse.result r ∧ r.message ≠ "" :=
  C9_message_nonempty.2 {} none
    { type := "function-call"
      function_call := some { name := "get_menu", parameters := {} } } rfl

/-- C10: an order persisted by `create_order` has status `PAID` with
`payment_status = "paid"` exactly when the call parameters carry a
(non-empty, non-null) `payment_id` or `payment_intent_id`, and otherwise has
status `PAYMENT_PENDING` with `payment_status = "pending"`; the persisted
`payment_intent_id` is taken verbatim from the caller-supplied parameters,
with no verification against the payment provider. -/
theorem C10_inline_payment_trusted (o : Oracle) (params : Params) (db : DB)
    (call_info : Option CallInfo) (language : String)
    (hp1 : ∀ s, params.payment_id = some s → s ≠ "")
    (hp2 : ∀ s, params.payment_intent_id = some s → s ≠ "")
    (hitems : parseCreateItems params ≠ []) :
    ∃ row : OrderRow,
      (_func_create_order o params (some db) call_info language).2.1
        = some { db with orders := db.orders ++ [row]
                         next_order_id := db.next_order_id + 1 } ∧
      ((row.status = OrderStatus.PAID ∧ row.payment_status = "paid") ↔
        (params.payment_id ≠ none ∨ params.payment_intent_id ≠ none)) ∧
      ((params.payment_id = none ∧ params.payment_intent_id = none) →
        row.status = OrderStatus.PAYMENT_PENDING ∧ row.payment_status = "pending") ∧
      row.payment_intent_id = extractPaymentId params := by
  refine ⟨createOrderRow o.now params call_info language db.next_order_id,
    (create_order_appends o params db call_info language hitems).1, ?_, ?_, rfl⟩
  · have hst : (createOrderRow o.now params call_info language db.next_order_id).status
        = if truthyStr (extractPaymentId params) then OrderStatus.PAID
          else OrderStatus.PAYMENT_PENDING := rfl
    have hps : (createOrderRow o.now params call_info language db.next_order_id).payment_status
        = if truthyStr (extractPaymentId params) then "paid" else "pending" := rfl
    rw [hst, hps]
    by_cases htr : truthyStr (extractPaymentId params) = true
    · simp only [htr, if_true]
      simp only [(payment_truthy_iff params hp1 hp2).mp htr]
      simp
    · have htr' : truthyStr (extractPaymentId params) = false := by
        simpa using htr
      simp only [htr', if_false]
      constructor
      · rintro ⟨h1, -⟩
        exact absurd h1 (by simp)
      · intro hr
        exact absurd ((payment_truthy_iff params hp1 hp2).mpr hr) htr
  · rintro ⟨h1, h2⟩
    have : extractPaymentId params = none := by
      simp [extractPaymentId, h1, h2, Option.orElse]
    constructor <;> simp [createOrderRow, this, truthyStr]

/-- C10 (witness): the theorem applied to a call carrying
`payment_id = "pi_123"` and one item, on an empty store. -/
theorem C10_inline_payment_trusted_witness :
    ∃ row : OrderRow,
      (_func_create_order {} c10Params (some c2Db0) c2Call "en").2.1
        = some { c2Db0 with orders := c2Db0.orders ++ [row]
                            next_order_id := c2Db0.next_order_id + 1 } ∧
      ((row.status = OrderStatus.PAID ∧ row.payment_status = "paid") ↔
        (c10Params.payment_id ≠ none ∨ c10Params.payment_intent_id ≠ none)) ∧
      ((c10Params.payment_id = none ∧ c10Params.payment_intent_id = none) →
        row.status = OrderStatus.PAYMENT_PENDING ∧ row.payment_status = "pending") ∧
      row.payment_intent_id = extractPaymentId c10Params :=
  C10_inline_payment_trusted {} c10Params c2Db0 c2Call "en"
    (by simp [c10Params])
    (by simp [c10Params])
    (by simp [parseCreateItems, getItemsParam, c10Params])

end Restaurant
